import Mathlib

/-!
Shallow embedding of src/API_Uptime_Monitor.py.

The program is a linear poll-evaluate-notify loop: `check_endpoint` issues
one GET and classifies the response, `send_telegram_alert` / `send_slack_alert`
POST a formatted message to their sink, and `monitor_job` runs one cycle over
the static endpoint list.  All network effects are modelled by oracles
(`String -> HttpOutcome` for probes, `PostCall -> PostOutcome` for sink
deliveries) and every function returns, besides its Python return value, the
list of observable events (log lines and outbound HTTP calls) it performs, in
order.  `make_session`'s urllib3 retry adapter is modelled at the wire level
by `RetryPolicy` / `session_exec`; the urllib3 defaults the source does not
override (allowed methods for status/read retry, raise_on_status) are part of
that model, since the source relies on them.
-/

namespace UptimeMonitor

/-- An entry of the module-level ENDPOINTS list: a dict with name and url. -/
structure Endpoint where
  name : String
  url : String
deriving Repr, DecidableEq

/-- The ENDPOINTS list of the source (lines 15-18). -/
def ENDPOINTS : List Endpoint :=
  [⟨"JSON Placeholder API", "https://jsonplaceholder.typicode.com/posts/1"⟩,
   ⟨"GitHub API", "https://api.github.com"⟩]

/-- The environment-sourced module-level configuration (lines 21-25).
Sink credentials are `Option String` (os.getenv returns None when unset); the
ints keep their source defaults at the call sites that read them. -/
structure Config where
  check_interval : Nat
  telegram_bot_token : Option String
  telegram_chat_id : Option String
  slack_webhook_url : Option String
  request_timeout : Nat
deriving Repr, DecidableEq

/-- Python truthiness of a `str | None` value: `not x` holds for None and "". -/
def falsy : Option String → Bool
  | none => true
  | some s => s = ""

/-- Outcome of one GET request as seen by `check_endpoint` after the session
layer: either a completed response (status code and elapsed seconds) or a
raised `requests.exceptions.RequestException` (timeout, connection error, DNS
failure, TLS error, retry exhaustion), carrying its message. -/
inductive HttpOutcome where
  | completed (statusCode : Nat) (elapsed : ℚ)
  | exn (msg : String)
deriving Repr, DecidableEq

/-- One outbound POST as issued by a sink: url, JSON object (string fields, in
insertion order) and timeout in seconds. -/
structure PostCall where
  url : String
  payload : List (String × String)
  timeout : Nat
deriving Repr, DecidableEq

/-- Outcome of a sink POST at the requests level: a completed response with a
status code (requests does not raise on non-2xx), or a raised exception. -/
inductive PostOutcome where
  | ok (statusCode : Nat)
  | exn (msg : String)
deriving Repr, DecidableEq

/-- Observable actions of the program, in the order they happen: log lines at
their level and outbound HTTP calls. -/
inductive Event where
  | logInfo (msg : String)
  | logError (msg : String)
  | logWarning (msg : String)
  | logDebug (msg : String)
  | get (url : String) (timeout : Nat)
  | post (url : String) (payload : List (String × String)) (timeout : Nat)
deriving Repr, DecidableEq

/-- Round-half-to-even on rationals, the semantics of Python round() for a
tie; non-ties round to nearest.  (The binary-float representation error of
CPython round(float, 2) is below the granularity any claim observes and is
not modelled.) -/
def roundHalfEven (q : ℚ) : ℤ :=
  if 2 * (q - ⌊q⌋) = 1 then (if Even ⌊q⌋ then ⌊q⌋ else ⌊q⌋ + 1) else round q

/-- Python round(x, 2) on the elapsed-seconds value (line 53). -/
def round2 (q : ℚ) : ℚ := (roundHalfEven (q * 100) : ℚ) / 100

/-- The tuple check_endpoint returns (line 54 / 57):
(is_healthy, status_code, response_time). -/
structure CheckResult where
  healthy : Bool
  status_code : Option Nat
  response_time : Option ℚ
deriving Repr, DecidableEq

/-- Python str(x) for an int-or-None slot interpolated by %s or an f-string. -/
def pyShowOptNat : Option Nat → String
  | none => "None"
  | some n => toString n

/-- Python str() of the rounded elapsed-seconds value as interpolated into the
informational log line.  The exact CPython float repr is immaterial to every
claim; this stand-in keeps the value injectively printable. -/
def pyShowRat (q : ℚ) : String := toString q

/-- check_endpoint (lines 47-57): one GET to endpoint["url"] with the
configured timeout; healthy iff status == 200; on RequestException, log at
debug level and return (False, None, None).  Returns the events performed
together with the result tuple; the function is total — the except clause
means no exception reaches the caller. -/
def check_endpoint (cfg : Config) (net : String → HttpOutcome) (ep : Endpoint) :
    List Event × CheckResult :=
  match net ep.url with
  | .completed code elapsed =>
      ([.get ep.url cfg.request_timeout],
       ⟨code == 200, some code, some (round2 elapsed)⟩)
  | .exn msg =>
      ([.get ep.url cfg.request_timeout,
        .logDebug ("Request error for " ++ ep.url ++ ": " ++ msg)],
       ⟨false, none, none⟩)

/-- The urllib3 Retry object built by make_session (line 34) plus the library
defaults the source leaves in place: DEFAULT_ALLOWED_METHODS (the idempotent
methods eligible for status- and read-retry — POST is not among them) and
raise_on_status = True. -/
structure RetryPolicy where
  total : Nat
  backoff_factor : ℚ
  status_forcelist : List Nat
  allowed_methods : List String
  raise_on_status : Bool
deriving Repr, DecidableEq

/-- The urllib3 default retry method allowlist (Retry.DEFAULT_ALLOWED_METHODS). -/
def DEFAULT_ALLOWED_METHODS : List String :=
  ["HEAD", "GET", "PUT", "DELETE", "OPTIONS", "TRACE"]

/-- A requests.Session: either plain, or with an HTTPAdapter carrying a Retry
mounted for both http:// and https:// (lines 35-37 mount the same adapter for
both prefixes, so one field covers every URL this program touches). -/
structure Session where
  retry : Option RetryPolicy
deriving Repr, DecidableEq

/-- make_session (lines 28-41): build a session, then try to configure the
retry adapter; if the imports or construction fail (urllib3 unavailable) the
except clause keeps the plain session.  The availability of urllib3 is the
boolean argument; the source's defaults retries=2, backoff_factor=0.5. -/
def make_session (urllib3_available : Bool) (retries : Nat := 2)
    (backoff_factor : ℚ := 1/2) : Session :=
  if urllib3_available then
    { retry := some
        { total := retries
          backoff_factor := backoff_factor
          status_forcelist := [500, 502, 503, 504]
          allowed_methods := DEFAULT_ALLOWED_METHODS
          raise_on_status := true } }
  else
    { retry := none }

/-- What the wire does on the i-th attempt of one logical request: the server
answers with a status code, the connection fails before the request is sent,
or the connection drops / times out after the request was delivered. -/
inductive WireResult where
  | status (code : Nat)
  | connError
  | readError
deriving Repr, DecidableEq

/-- Final outcome of one logical request at the requests level. -/
inductive TransportOutcome where
  | response (statusCode : Nat)
  | raised (msg : String)
deriving Repr, DecidableEq

/-- The urllib3 retry loop for one logical request: `remaining` starts at
Retry.total; a forcelisted status or a read error is retried only when the
method is in the allowed list (connection errors are retried for any method,
nothing having been delivered); exhaustion raises (MaxRetryError surfaced as
a requests exception; raise_on_status = True raises on status exhaustion).
Returns the number of requests actually delivered to the server (attempts
that got a status or a read error) and the outcome the caller sees. -/
def retry_exec (pol : RetryPolicy) (method : String) (wire : Nat → WireResult) :
    Nat → Nat → Nat × TransportOutcome
  | i, remaining =>
    match wire i with
    | .connError =>
        match remaining with
        | 0 => (0, .raised "ConnectionError: max retries exceeded")
        | r + 1 =>
            let rest := retry_exec pol method wire (i + 1) r
            (rest.1, rest.2)
    | .readError =>
        if method ∈ pol.allowed_methods then
          match remaining with
          | 0 => (1, .raised "ReadTimeoutError: max retries exceeded")
          | r + 1 =>
              let rest := retry_exec pol method wire (i + 1) r
              (rest.1 + 1, rest.2)
        else
          (1, .raised "ReadTimeoutError")
    | .status c =>
        if c ∈ pol.status_forcelist ∧ method ∈ pol.allowed_methods then
          match remaining with
          | 0 => (1, .raised "RetryError: too many retries for status")
          | r + 1 =>
              let rest := retry_exec pol method wire (i + 1) r
              (rest.1 + 1, rest.2)
        else
          (1, .response c)

/-- One logical request through a session: a plain session performs exactly
one wire attempt; a session with the retry adapter runs the urllib3 loop. -/
def session_exec (s : Session) (method : String) (wire : Nat → WireResult) :
    Nat × TransportOutcome :=
  match s.retry with
  | none =>
      match wire 0 with
      | .status c => (1, .response c)
      | .connError => (0, .raised "ConnectionError")
      | .readError => (1, .raised "ReadTimeoutError")
  | some pol => retry_exec pol method wire 0 pol.total

/-- The Telegram sendMessage URL built at line 64. -/
def telegram_url (token : String) : String :=
  "https://api.telegram.org/bot" ++ token ++ "/sendMessage"

/-- The Telegram JSON payload built at line 65: exactly chat_id, text and
parse_mode = "HTML", in that order. -/
def telegram_payload (chatId message : String) : List (String × String) :=
  [("chat_id", chatId), ("text", message), ("parse_mode", "HTML")]

/-- send_telegram_alert (lines 60-69): return immediately when the token or
the chat id is falsy (None or empty); otherwise POST the payload with a
5-second timeout and, if the POST raises, catch the exception and log one
warning.  A completed response is not inspected: its status code is dropped.
Returns the events performed, in order. -/
def send_telegram_alert (cfg : Config) (post : PostCall → PostOutcome)
    (message : String) : List Event :=
  if falsy cfg.telegram_bot_token ∨ falsy cfg.telegram_chat_id then []
  else
    let tok := cfg.telegram_bot_token.getD ""
    let chat := cfg.telegram_chat_id.getD ""
    let call : PostCall := ⟨telegram_url tok, telegram_payload chat message, 5⟩
    match post call with
    | .ok _ => [.post call.url call.payload call.timeout]
    | .exn e =>
        [.post call.url call.payload call.timeout,
         .logWarning ("Failed to send telegram alert: " ++ e)]

/-- send_slack_alert (lines 72-80): return immediately when the webhook URL is
falsy; otherwise POST \x7b"text": message\x7d with a 5-second timeout and, if
the POST raises, catch and log one warning.  A completed response is not
inspected. -/
def send_slack_alert (cfg : Config) (post : PostCall → PostOutcome)
    (message : String) : List Event :=
  if falsy cfg.slack_webhook_url then []
  else
    let url := cfg.slack_webhook_url.getD ""
    let call : PostCall := ⟨url, [("text", message)], 5⟩
    match post call with
    | .ok _ => [.post call.url call.payload call.timeout]
    | .exn e =>
        [.post call.url call.payload call.timeout,
         .logWarning ("Failed to send Slack alert: " ++ e)]

/-- The Telegram alert message built at lines 94-98. -/
def alert_msg (name : String) (statusCode : Option Nat) (timestamp : String) :
    String :=
  "🚨 <b>" ++ name ++ "</b> is DOWN!\n" ++
  "Status: " ++ pyShowOptNat statusCode ++ "\n" ++
  "Time: " ++ timestamp ++ "\n"

/-- The Slack alert message built at line 99. -/
def slack_msg (name : String) (statusCode : Option Nat) (timestamp : String) :
    String :=
  "🚨 " ++ name ++ " is DOWN! Status: " ++ pyShowOptNat statusCode ++
  " (" ++ timestamp ++ ")"

/-- The informational log line of line 91. -/
def ok_line (name : String) (statusCode : Option Nat) (rt : Option ℚ) :
    String :=
  "✓ " ++ name ++ ": OK (" ++ pyShowOptNat statusCode ++ ") - " ++
  (match rt with | none => "None" | some q => pyShowRat q) ++ "s"

/-- The error log line of line 93. -/
def fail_line (name : String) (statusCode : Option Nat) : String :=
  "✗ " ++ name ++ ": FAILED (" ++ pyShowOptNat statusCode ++ ")"

/-- The body of the failure branch of monitor_job (lines 94-101): build both
messages from the cycle timestamp and invoke the two sinks, Telegram first,
synchronously. -/
def dispatch (cfg : Config) (post : PostCall → PostOutcome) (name : String)
    (statusCode : Option Nat) (timestamp : String) : List Event :=
  send_telegram_alert cfg post (alert_msg name statusCode timestamp) ++
  send_slack_alert cfg post (slack_msg name statusCode timestamp)

/-- The for loop of monitor_job (lines 88-101): probe each endpoint in list
order; log and, on failure, dispatch before moving to the next endpoint. -/
def monitor_loop (cfg : Config) (net : String → HttpOutcome)
    (post : PostCall → PostOutcome) (timestamp : String) :
    List Endpoint → List Event
  | [] => []
  | ep :: rest =>
      let checked := check_endpoint cfg net ep
      let r := checked.2
      (if r.healthy then
        checked.1 ++ [.logInfo (ok_line ep.name r.status_code r.response_time)]
      else
        checked.1 ++ [.logError (fail_line ep.name r.status_code)] ++
          dispatch cfg post ep.name r.status_code timestamp) ++
      monitor_loop cfg net post timestamp rest

/-- monitor_job (lines 83-101): format the timestamp from the single
datetime.now() call made before the loop (modelled by the clock oracle `now`,
read at call index 0 and never again), log the banner, then run the loop over
ENDPOINTS. -/
def monitor_job (cfg : Config) (net : String → HttpOutcome)
    (post : PostCall → PostOutcome) (now : Nat → String) : List Event :=
  let timestamp := now 0
  Event.logInfo "Running health checks..." ::
    monitor_loop cfg net post timestamp ENDPOINTS

/-- The urls of the GET requests of a trace, in order. -/
def getUrls (tr : List Event) : List String :=
  tr.filterMap fun e => match e with | .get u _ => some u | _ => none

/-- Whether an event is an outbound POST. -/
def isPostEvent : Event → Bool
  | .post _ _ _ => true
  | _ => false

/-- Whether an event is a warning-level log line. -/
def isWarning : Event → Bool
  | .logWarning _ => true
  | _ => false

/-- Per-endpoint segment of one tick, as the spec describes it: probe the
endpoint, record one log line, and on failure invoke the dispatcher exactly
once, all before the next endpoint is touched.  `monitor_loop` is proved
equal to the concatenation of these segments in list order. -/
def cycle_segment (cfg : Config) (net : String → HttpOutcome)
    (post : PostCall → PostOutcome) (timestamp : String) (ep : Endpoint) :
    List Event :=
  let c := check_endpoint cfg net ep
  if c.2.healthy then
    c.1 ++ [.logInfo (ok_line ep.name c.2.status_code c.2.response_time)]
  else
    c.1 ++ [.logError (fail_line ep.name c.2.status_code)] ++
      dispatch cfg post ep.name c.2.status_code timestamp

/-- A sink payload whose text field is one of the two alert renderings built
from the given timestamp string. -/
def carries_timestamp (ts : String) (p : List (String × String)) : Prop :=
  ∃ name sc, p.lookup "text" = some (alert_msg name sc ts) ∨
    p.lookup "text" = some (slack_msg name sc ts)

lemma monitor_loop_eq_flatten (cfg : Config) (net : String → HttpOutcome)
    (post : PostCall → PostOutcome) (ts : String) (eps : List Endpoint) :
    monitor_loop cfg net post ts eps =
      (eps.map (cycle_segment cfg net post ts)).flatten := by
  induction eps with
  | nil => rfl
  | cons ep rest ih =>
      simp only [monitor_loop, cycle_segment, List.map_cons, List.flatten_cons,
        ih]

lemma getUrls_append (a b : List Event) :
    getUrls (a ++ b) = getUrls a ++ getUrls b := by
  simp [getUrls, List.filterMap_append]

lemma getUrls_send_telegram (cfg : Config) (post : PostCall → PostOutcome)
    (msg : String) : getUrls (send_telegram_alert cfg post msg) = [] := by
  unfold send_telegram_alert
  split
  · rfl
  · dsimp only
    split <;> rfl

lemma getUrls_send_slack (cfg : Config) (post : PostCall → PostOutcome)
    (msg : String) : getUrls (send_slack_alert cfg post msg) = [] := by
  unfold send_slack_alert
  split
  · rfl
  · dsimp only
    split <;> rfl

lemma getUrls_dispatch (cfg : Config) (post : PostCall → PostOutcome)
    (name : String) (sc : Option Nat) (ts : String) :
    getUrls (dispatch cfg post name sc ts) = [] := by
  simp [dispatch, getUrls_append, getUrls_send_telegram, getUrls_send_slack]

lemma getUrls_check (cfg : Config) (net : String → HttpOutcome)
    (ep : Endpoint) : getUrls (check_endpoint cfg net ep).1 = [ep.url] := by
  unfold check_endpoint
  split <;> rfl

lemma getUrls_logInfo (s : String) : getUrls [Event.logInfo s] = [] := rfl

lemma getUrls_logError (s : String) : getUrls [Event.logError s] = [] := rfl

lemma getUrls_segment (cfg : Config) (net : String → HttpOutcome)
    (post : PostCall → PostOutcome) (ts : String) (ep : Endpoint) :
    getUrls (cycle_segment cfg net post ts ep) = [ep.url] := by
  unfold cycle_segment
  dsimp only
  split <;>
    simp only [getUrls_append, getUrls_check, getUrls_dispatch, getUrls_logInfo,
      getUrls_logError, List.append_nil]

lemma getUrls_monitor_loop (cfg : Config) (net : String → HttpOutcome)
    (post : PostCall → PostOutcome) (ts : String) (eps : List Endpoint) :
    getUrls (monitor_loop cfg net post ts eps) = eps.map Endpoint.url := by
  induction eps with
  | nil => rfl
  | cons ep rest ih =>
      rw [monitor_loop_eq_flatten] at ih ⊢
      simp only [List.map_cons, List.flatten_cons, getUrls_append, ih,
        getUrls_segment]
      rfl

lemma countP_post_check (cfg : Config) (net : String → HttpOutcome)
    (ep : Endpoint) :
    (check_endpoint cfg net ep).1.countP isPostEvent = 0 := by
  unfold check_endpoint
  split <;> rfl

lemma countP_post_send_telegram_le_one (cfg : Config)
    (post : PostCall → PostOutcome) (msg : String) :
    (send_telegram_alert cfg post msg).countP isPostEvent ≤ 1 := by
  unfold send_telegram_alert
  split
  · simp
  · dsimp only
    split <;> simp [List.countP_cons, isPostEvent]

lemma countP_post_send_slack_le_one (cfg : Config)
    (post : PostCall → PostOutcome) (msg : String) :
    (send_slack_alert cfg post msg).countP isPostEvent ≤ 1 := by
  unfold send_slack_alert
  split
  · simp
  · dsimp only
    split <;> simp [List.countP_cons, isPostEvent]

lemma countP_post_send_telegram (cfg : Config) (post : PostCall → PostOutcome)
    (msg tok chat : String) (hT : cfg.telegram_bot_token = some tok)
    (ht : tok ≠ "") (hC : cfg.telegram_chat_id = some chat) (hc : chat ≠ "") :
    (send_telegram_alert cfg post msg).countP isPostEvent = 1 := by
  unfold send_telegram_alert
  rw [hT, hC]
  simp only [falsy, decide_eq_true_eq, ht, hc, or_self, if_false,
    Option.getD_some]
  split <;> simp [List.countP_cons, isPostEvent]

lemma countP_post_send_slack (cfg : Config) (post : PostCall → PostOutcome)
    (msg surl : String) (hS : cfg.slack_webhook_url = some surl)
    (hs : surl ≠ "") :
    (send_slack_alert cfg post msg).countP isPostEvent = 1 := by
  unfold send_slack_alert
  rw [hS]
  simp only [falsy, decide_eq_true_eq, hs, if_false, Option.getD_some]
  split <;> simp [List.countP_cons, isPostEvent]

lemma countP_post_dispatch (cfg : Config) (post : PostCall → PostOutcome)
    (name : String) (sc : Option Nat) (ts tok chat surl : String)
    (hT : cfg.telegram_bot_token = some tok) (ht : tok ≠ "")
    (hC : cfg.telegram_chat_id = some chat) (hc : chat ≠ "")
    (hS : cfg.slack_webhook_url = some surl) (hs : surl ≠ "") :
    (dispatch cfg post name sc ts).countP isPostEvent = 2 := by
  simp [dispatch, List.countP_append,
    countP_post_send_telegram cfg post _ tok chat hT ht hC hc,
    countP_post_send_slack cfg post _ surl hS hs]

lemma countP_post_segment (cfg : Config) (net : String → HttpOutcome)
    (post : PostCall → PostOutcome) (ts tok chat surl : String)
    (ep : Endpoint)
    (hT : cfg.telegram_bot_token = some tok) (ht : tok ≠ "")
    (hC : cfg.telegram_chat_id = some chat) (hc : chat ≠ "")
    (hS : cfg.slack_webhook_url = some surl) (hs : surl ≠ "") :
    (cycle_segment cfg net post ts ep).countP isPostEvent =
      if (check_endpoint cfg net ep).2.healthy then 0 else 2 := by
  unfold cycle_segment
  dsimp only
  by_cases h : (check_endpoint cfg net ep).2.healthy
  · simp [h, List.countP_append, countP_post_check, isPostEvent]
  · simp only [Bool.not_eq_true] at h
    simp [h, List.countP_append, countP_post_check, isPostEvent,
      countP_post_dispatch cfg post _ _ ts tok chat surl hT ht hC hc hS hs]

lemma countP_post_monitor_loop (cfg : Config) (net : String → HttpOutcome)
    (post : PostCall → PostOutcome) (ts tok chat surl : String)
    (eps : List Endpoint)
    (hT : cfg.telegram_bot_token = some tok) (ht : tok ≠ "")
    (hC : cfg.telegram_chat_id = some chat) (hc : chat ≠ "")
    (hS : cfg.slack_webhook_url = some surl) (hs : surl ≠ "") :
    (monitor_loop cfg net post ts eps).countP isPostEvent =
      2 * (eps.filter
        (fun ep => (check_endpoint cfg net ep).2.healthy = false)).length := by
  induction eps with
  | nil => rfl
  | cons ep rest ih =>
      rw [monitor_loop_eq_flatten] at ih ⊢
      simp only [List.map_cons, List.flatten_cons, List.countP_append, ih,
        countP_post_segment cfg net post ts tok chat surl ep hT ht hC hc hS hs,
        List.filter_cons]
      by_cases h : (check_endpoint cfg net ep).2.healthy
      · simp [h]
      · simp only [Bool.not_eq_true] at h
        simp only [h, Bool.not_false, if_false, List.length_cons, if_true]
        simp [h]
        ring

lemma post_mem_send_telegram (cfg : Config) (post : PostCall → PostOutcome)
    (msg url : String) (p : List (String × String)) (t : Nat)
    (h : Event.post url p t ∈ send_telegram_alert cfg post msg) :
    p.lookup "text" = some msg := by
  unfold send_telegram_alert at h
  split at h
  · simp at h
  · dsimp only at h
    split at h <;> simp only [List.mem_singleton, List.mem_cons,
        List.not_mem_nil, or_false, Event.post.injEq] at h
    · obtain ⟨-, hp, -⟩ := h
      subst hp
      rfl
    · rcases h with ⟨-, hp, -⟩ | h
      · subst hp
        rfl
      · cases h

lemma post_mem_send_slack (cfg : Config) (post : PostCall → PostOutcome)
    (msg url : String) (p : List (String × String)) (t : Nat)
    (h : Event.post url p t ∈ send_slack_alert cfg post msg) :
    p.lookup "text" = some msg := by
  unfold send_slack_alert at h
  split at h
  · simp at h
  · dsimp only at h
    split at h <;> simp only [List.mem_singleton, List.mem_cons,
        List.not_mem_nil, or_false, Event.post.injEq] at h
    · obtain ⟨-, hp, -⟩ := h
      subst hp
      rfl
    · rcases h with ⟨-, hp, -⟩ | h
      · subst hp
        rfl
      · cases h

lemma post_mem_dispatch (cfg : Config) (post : PostCall → PostOutcome)
    (name : String) (sc : Option Nat) (ts url : String)
    (p : List (String × String)) (t : Nat)
    (h : Event.post url p t ∈ dispatch cfg post name sc ts) :
    carries_timestamp ts p := by
  unfold dispatch at h
  rcases List.mem_append.mp h with h | h
  · exact ⟨name, sc, Or.inl (post_mem_send_telegram cfg post _ url p t h)⟩
  · exact ⟨name, sc, Or.inr (post_mem_send_slack cfg post _ url p t h)⟩

lemma post_not_mem_check (cfg : Config) (net : String → HttpOutcome)
    (ep : Endpoint) (url : String) (p : List (String × String)) (t : Nat) :
    Event.post url p t ∉ (check_endpoint cfg net ep).1 := by
  unfold check_endpoint
  split <;> simp

lemma post_mem_monitor_loop (cfg : Config) (net : String → HttpOutcome)
    (post : PostCall → PostOutcome) (ts url : String)
    (p : List (String × String)) (t : Nat) (eps : List Endpoint)
    (h : Event.post url p t ∈ monitor_loop cfg net post ts eps) :
    carries_timestamp ts p := by
  induction eps with
  | nil => cases h
  | cons ep rest ih =>
      rw [monitor_loop_eq_flatten] at h
      simp only [List.map_cons, List.flatten_cons, List.mem_append] at h
      rcases h with h | h
      · unfold cycle_segment at h
        dsimp only at h
        split at h <;>
          simp only [List.append_assoc, List.mem_append,
            List.mem_singleton] at h
        · rcases h with h | h
          · exact absurd h (post_not_mem_check cfg net ep url p t)
          · cases h
        · rcases h with h | h | h
          · exact absurd h (post_not_mem_check cfg net ep url p t)
          · cases h
          · exact post_mem_dispatch cfg post ep.name _ ts url p t h
      · rw [← monitor_loop_eq_flatten] at h
        exact ih h

lemma retry_deliveries_le_one (pol : RetryPolicy) (method : String)
    (wire : Nat → WireResult) (h : method ∉ pol.allowed_methods) :
    ∀ i r, (retry_exec pol method wire i r).1 ≤ 1 := by
  intro i r
  induction r generalizing i with
  | zero =>
      rw [retry_exec]
      cases wire i with
      | status c => simp [h]
      | connError => simp
      | readError => simp [h]
  | succ r ih =>
      rw [retry_exec]
      cases wire i with
      | status c => simp [h]
      | connError => exact ih (i + 1)
      | readError => simp [h]

/-- C1: for every probe that receives a completed HTTP response, the result is
healthy iff the status code is exactly 200; any other status yields
healthy = false with that status code (and the rounded elapsed time) recorded
in the result. -/
theorem check_endpoint_healthy_iff_200 (cfg : Config)
    (net : String → HttpOutcome) (ep : Endpoint) (code : Nat) (t : ℚ)
    (h : net ep.url = .completed code t) :
    ((check_endpoint cfg net ep).2.healthy = true ↔ code = 200) ∧
    (check_endpoint cfg net ep).2.status_code = some code ∧
    (check_endpoint cfg net ep).2.response_time = some (round2 t) := by
  simp [check_endpoint, h]

theorem check_endpoint_healthy_iff_200_witness :
    ((check_endpoint ⟨5, none, none, none, 10⟩
        (fun _ => .completed 404 1) ⟨"A", "http://a"⟩).2.healthy = true ↔
      404 = 200) ∧
    (check_endpoint ⟨5, none, none, none, 10⟩
        (fun _ => .completed 404 1) ⟨"A", "http://a"⟩).2.status_code =
      some 404 ∧
    (check_endpoint ⟨5, none, none, none, 10⟩
        (fun _ => .completed 404 1) ⟨"A", "http://a"⟩).2.response_time =
      some (round2 1) :=
  check_endpoint_healthy_iff_200 ⟨5, none, none, none, 10⟩
    (fun _ => .completed 404 1) ⟨"A", "http://a"⟩ 404 1 rfl

/-- C2: for every probe whose request raises at the network level, the
exception is caught (check_endpoint returns a plain value) and the result is
the failure tuple with status code and response time both absent. -/
theorem check_endpoint_network_failure (cfg : Config)
    (net : String → HttpOutcome) (ep : Endpoint) (m : String)
    (h : net ep.url = .exn m) :
    (check_endpoint cfg net ep).2 = ⟨false, none, none⟩ := by
  simp [check_endpoint, h]

theorem check_endpoint_network_failure_witness :
    (check_endpoint ⟨5, none, none, none, 10⟩
        (fun _ => .exn "ConnectionError") ⟨"A", "http://a"⟩).2 =
      ⟨false, none, none⟩ :=
  check_endpoint_network_failure ⟨5, none, none, none, 10⟩
    (fun _ => .exn "ConnectionError") ⟨"A", "http://a"⟩ "ConnectionError" rfl

/-- C4: each send function issues at most one POST per call, and the shared
session makes at most one delivered request per alert POST: the urllib3 retry
adapter does not status- or read-retry POST (not in the default allowed
methods), and a plain session never retries, so alert delivery is never
retried whether or not the retry adapter was configured. -/
theorem alert_delivery_at_most_once (cfg : Config)
    (post : PostCall → PostOutcome) (msg : String) (wire : Nat → WireResult) :
    (send_telegram_alert cfg post msg).countP isPostEvent ≤ 1 ∧
    (send_slack_alert cfg post msg).countP isPostEvent ≤ 1 ∧
    (session_exec (make_session true) "POST" wire).1 ≤ 1 ∧
    (session_exec (make_session false) "POST" wire).1 ≤ 1 := by
  refine ⟨countP_post_send_telegram_le_one cfg post msg,
    countP_post_send_slack_le_one cfg post msg, ?_, ?_⟩
  · have h : "POST" ∉ DEFAULT_ALLOWED_METHODS := by decide
    simpa [session_exec, make_session] using
      retry_deliveries_le_one
        ⟨2, 1/2, [500, 502, 503, 504], DEFAULT_ALLOWED_METHODS, true⟩
        "POST" wire h 0 2
  · cases hw : wire 0 <;> simp [session_exec, make_session, hw]

/-- C7: a sink whose credentials are falsy (absent or empty) is skipped
silently: the send function performs no event at all — no network call, no
log line — and returns normally. -/
theorem unconfigured_sink_skipped (cfg : Config) (post : PostCall → PostOutcome)
    (msgT msgS : String) :
    (falsy cfg.telegram_bot_token ∨ falsy cfg.telegram_chat_id →
      send_telegram_alert cfg post msgT = []) ∧
    (falsy cfg.slack_webhook_url → send_slack_alert cfg post msgS = []) := by
  constructor
  · intro h
    unfold send_telegram_alert
    rw [if_pos h]
  · intro h
    unfold send_slack_alert
    rw [if_pos h]

theorem unconfigured_sink_skipped_witness :
    send_telegram_alert ⟨5, none, none, none, 10⟩
      (fun _ => PostOutcome.ok 200) "m" = [] ∧
    send_slack_alert ⟨5, none, none, none, 10⟩
      (fun _ => PostOutcome.ok 200) "m" = [] :=
  ⟨(unconfigured_sink_skipped ⟨5, none, none, none, 10⟩
      (fun _ => PostOutcome.ok 200) "m" "m").1 (Or.inl rfl),
   (unconfigured_sink_skipped ⟨5, none, none, none, 10⟩
      (fun _ => PostOutcome.ok 200) "m" "m").2 rfl⟩

/-- C8: make_session always returns a session: with urllib3 available the
retry is configured with the given retries and backoff (defaults 2 and 0.5)
on statuses 500/502/503/504; without it a plain non-retrying session is
returned instead of failing.  The retry is transparent: a GET whose wire
attempts see 503, 503, 200 surfaces the final 200 to the caller. -/
theorem make_session_retry_config :
    (∀ r b, make_session true r b =
      ⟨some ⟨r, b, [500, 502, 503, 504], DEFAULT_ALLOWED_METHODS, true⟩⟩) ∧
    make_session true =
      ⟨some ⟨2, 1/2, [500, 502, 503, 504], DEFAULT_ALLOWED_METHODS, true⟩⟩ ∧
    (∀ r b, make_session false r b = ⟨none⟩) ∧
    session_exec (make_session true) "GET"
      (fun i => if i < 2 then .status 503 else .status 200) =
      (3, .response 200) ∧
    (∀ method wire, session_exec (make_session false) method wire =
      session_exec ⟨none⟩ method wire) :=
  ⟨fun _ _ => rfl, rfl, fun _ _ => rfl, by decide, fun _ _ => rfl⟩

/-- C9: an alert POST to Telegram goes to
https://api.telegram.org/bot<token>/sendMessage with exactly the fields
chat_id, text and parse_mode = "HTML"; the webhook POST goes to the
configured URL with body text = message; each uses timeout 5 regardless of
cfg.request_timeout (which is universally quantified here). -/
theorem sink_request_shapes (cfg : Config) (post : PostCall → PostOutcome)
    (msg tok chat surl : String)
    (hT : cfg.telegram_bot_token = some tok) (ht : tok ≠ "")
    (hC : cfg.telegram_chat_id = some chat) (hc : chat ≠ "")
    (hS : cfg.slack_webhook_url = some surl) (hs : surl ≠ "") :
    (send_telegram_alert cfg post msg).head? =
      some (.post (telegram_url tok) (telegram_payload chat msg) 5) ∧
    (send_slack_alert cfg post msg).head? =
      some (.post surl [("text", msg)] 5) := by
  constructor
  · unfold send_telegram_alert
    rw [hT, hC]
    simp only [falsy, decide_eq_true_eq, ht, hc, or_self, if_false,
      Option.getD_some]
    split <;> rfl
  · unfold send_slack_alert
    rw [hS]
    simp only [falsy, decide_eq_true_eq, hs, if_false, Option.getD_some]
    split <;> rfl

theorem sink_request_shapes_witness :
    (send_telegram_alert ⟨5, some "TOK", some "42", some "https://w.example/h", 99⟩
        (fun _ => PostOutcome.ok 200) "m").head? =
      some (.post (telegram_url "TOK") (telegram_payload "42" "m") 5) ∧
    (send_slack_alert ⟨5, some "TOK", some "42", some "https://w.example/h", 99⟩
        (fun _ => PostOutcome.ok 200) "m").head? =
      some (.post "https://w.example/h" [("text", "m")] 5) :=
  sink_request_shapes ⟨5, some "TOK", some "42", some "https://w.example/h", 99⟩
    (fun _ => PostOutcome.ok 200) "m" "TOK" "42" "https://w.example/h"
    rfl (by decide) rfl (by decide) rfl (by decide)

lemma send_telegram_events_exn (cfg : Config) (post : PostCall → PostOutcome)
    (msg tok chat e : String)
    (hT : cfg.telegram_bot_token = some tok) (ht : tok ≠ "")
    (hC : cfg.telegram_chat_id = some chat) (hc : chat ≠ "")
    (hp : post ⟨telegram_url tok, telegram_payload chat msg, 5⟩ = .exn e) :
    send_telegram_alert cfg post msg =
      [.post (telegram_url tok) (telegram_payload chat msg) 5,
       .logWarning ("Failed to send telegram alert: " ++ e)] := by
  unfold send_telegram_alert
  rw [hT, hC]
  simp only [falsy, decide_eq_true_eq, ht, hc, or_self, if_false,
    Option.getD_some]
  rw [hp]

lemma send_telegram_events_ok (cfg : Config) (post : PostCall → PostOutcome)
    (msg tok chat : String) (c : Nat)
    (hT : cfg.telegram_bot_token = some tok) (ht : tok ≠ "")
    (hC : cfg.telegram_chat_id = some chat) (hc : chat ≠ "")
    (hp : post ⟨telegram_url tok, telegram_payload chat msg, 5⟩ = .ok c) :
    send_telegram_alert cfg post msg =
      [.post (telegram_url tok) (telegram_payload chat msg) 5] := by
  unfold send_telegram_alert
  rw [hT, hC]
  simp only [falsy, decide_eq_true_eq, ht, hc, or_self, if_false,
    Option.getD_some]
  rw [hp]

lemma send_slack_events_exn (cfg : Config) (post : PostCall → PostOutcome)
    (msg surl e : String)
    (hS : cfg.slack_webhook_url = some surl) (hs : surl ≠ "")
    (hp : post ⟨surl, [("text", msg)], 5⟩ = .exn e) :
    send_slack_alert cfg post msg =
      [.post surl [("text", msg)] 5,
       .logWarning ("Failed to send Slack alert: " ++ e)] := by
  unfold send_slack_alert
  rw [hS]
  simp only [falsy, decide_eq_true_eq, hs, if_false, Option.getD_some]
  rw [hp]

lemma send_slack_events_ok (cfg : Config) (post : PostCall → PostOutcome)
    (msg surl : String) (c : Nat)
    (hS : cfg.slack_webhook_url = some surl) (hs : surl ≠ "")
    (hp : post ⟨surl, [("text", msg)], 5⟩ = .ok c) :
    send_slack_alert cfg post msg = [.post surl [("text", msg)] 5] := by
  unfold send_slack_alert
  rw [hS]
  simp only [falsy, decide_eq_true_eq, hs, if_false, Option.getD_some]
  rw [hp]

lemma post_head_send_slack (cfg : Config) (post : PostCall → PostOutcome)
    (msg surl : String)
    (hS : cfg.slack_webhook_url = some surl) (hs : surl ≠ "") :
    Event.post surl [("text", msg)] 5 ∈ send_slack_alert cfg post msg := by
  unfold send_slack_alert
  rw [hS]
  simp only [falsy, decide_eq_true_eq, hs, if_false, Option.getD_some]
  split <;> simp

/-- C3: on one tick the endpoints are probed strictly in list order (the GET
urls of the trace are exactly the endpoint urls, in order), the trace is the
in-order concatenation of per-endpoint segments — so each failed endpoint's
dispatch completes before the next endpoint's probe starts — and, with both
sinks configured, the dispatcher emits exactly two sink POSTs per failed
endpoint and none for a healthy one.  The last conjunct ties monitor_job to
the loop over ENDPOINTS. -/
theorem monitor_job_cycle_structure (cfg : Config) (net : String → HttpOutcome)
    (post : PostCall → PostOutcome) (now : Nat → String)
    (eps : List Endpoint) (tok chat surl : String)
    (hT : cfg.telegram_bot_token = some tok) (ht : tok ≠ "")
    (hC : cfg.telegram_chat_id = some chat) (hc : chat ≠ "")
    (hS : cfg.slack_webhook_url = some surl) (hs : surl ≠ "") :
    monitor_loop cfg net post (now 0) eps =
      (eps.map (cycle_segment cfg net post (now 0))).flatten ∧
    getUrls (monitor_loop cfg net post (now 0) eps) = eps.map Endpoint.url ∧
    (monitor_loop cfg net post (now 0) eps).countP isPostEvent =
      2 * (eps.filter
        (fun ep => (check_endpoint cfg net ep).2.healthy = false)).length ∧
    monitor_job cfg net post now =
      Event.logInfo "Running health checks..." ::
        monitor_loop cfg net post (now 0) ENDPOINTS :=
  ⟨monitor_loop_eq_flatten cfg net post (now 0) eps,
   getUrls_monitor_loop cfg net post (now 0) eps,
   countP_post_monitor_loop cfg net post (now 0) tok chat surl eps
     hT ht hC hc hS hs, rfl⟩

theorem monitor_job_cycle_structure_witness :
    monitor_loop ⟨5, some "TOK", some "42", some "https://w.example/h", 10⟩
        (fun _ => .exn "refused") (fun _ => PostOutcome.ok 200)
        ((fun _ => "T0") 0) ENDPOINTS =
      ((ENDPOINTS.map (cycle_segment
          ⟨5, some "TOK", some "42", some "https://w.example/h", 10⟩
          (fun _ => .exn "refused") (fun _ => PostOutcome.ok 200)
          ((fun _ => "T0") 0)))).flatten ∧
    getUrls (monitor_loop ⟨5, some "TOK", some "42", some "https://w.example/h", 10⟩
        (fun _ => .exn "refused") (fun _ => PostOutcome.ok 200)
        ((fun _ => "T0") 0) ENDPOINTS) = ENDPOINTS.map Endpoint.url ∧
    (monitor_loop ⟨5, some "TOK", some "42", some "https://w.example/h", 10⟩
        (fun _ => .exn "refused") (fun _ => PostOutcome.ok 200)
        ((fun _ => "T0") 0) ENDPOINTS).countP isPostEvent =
      2 * (ENDPOINTS.filter
        (fun ep => (check_endpoint
          ⟨5, some "TOK", some "42", some "https://w.example/h", 10⟩
          (fun _ => .exn "refused") ep).2.healthy = false)).length ∧
    monitor_job ⟨5, some "TOK", some "42", some "https://w.example/h", 10⟩
        (fun _ => .exn "refused") (fun _ => PostOutcome.ok 200)
        (fun _ => "T0") =
      Event.logInfo "Running health checks..." ::
        monitor_loop ⟨5, some "TOK", some "42", some "https://w.example/h", 10⟩
          (fun _ => .exn "refused") (fun _ => PostOutcome.ok 200)
          ((fun _ => "T0") 0) ENDPOINTS :=
  monitor_job_cycle_structure
    ⟨5, some "TOK", some "42", some "https://w.example/h", 10⟩
    (fun _ => .exn "refused") (fun _ => PostOutcome.ok 200) (fun _ => "T0")
    ENDPOINTS "TOK" "42" "https://w.example/h"
    rfl (by decide) rfl (by decide) rfl (by decide)

/-- C5 counterexample: a slack delivery attempt that completes with status
500 — a non-2xx response from the sink — produces a trace consisting of the
POST alone: no warning is logged and the response is not treated as a
failure, contradicting the claim that a non-2xx response is caught and
logged as a warning. -/
theorem sink_non2xx_not_logged_cex :
    (fun _ : PostCall => PostOutcome.ok 500)
        ⟨"https://hooks.example/slack", [("text", "m")], 5⟩ =
      PostOutcome.ok 500 ∧
    send_slack_alert ⟨5, none, none, some "https://hooks.example/slack", 10⟩
        (fun _ => PostOutcome.ok 500) "m" =
      [Event.post "https://hooks.example/slack" [("text", "m")] 5] ∧
    (send_slack_alert ⟨5, none, none, some "https://hooks.example/slack", 10⟩
        (fun _ => PostOutcome.ok 500) "m").countP isWarning = 0 := by
  exact ⟨rfl, by decide, by decide⟩

/-- C5 amended: for every sink delivery attempt, a delivery failure that
raises — network error or timeout — is caught and logged as a single
warning; a delivery attempt that completes is never inspected, so a non-2xx
response from the sink is neither treated nor logged as a failure. -/
theorem sink_delivery_failure_handling (cfg : Config)
    (post : PostCall → PostOutcome) (msg tok chat surl : String)
    (hT : cfg.telegram_bot_token = some tok) (ht : tok ≠ "")
    (hC : cfg.telegram_chat_id = some chat) (hc : chat ≠ "")
    (hS : cfg.slack_webhook_url = some surl) (hs : surl ≠ "") :
    (∀ e, post ⟨telegram_url tok, telegram_payload chat msg, 5⟩ = .exn e →
      send_telegram_alert cfg post msg =
        [.post (telegram_url tok) (telegram_payload chat msg) 5,
         .logWarning ("Failed to send telegram alert: " ++ e)]) ∧
    (∀ c, post ⟨telegram_url tok, telegram_payload chat msg, 5⟩ = .ok c →
      send_telegram_alert cfg post msg =
        [.post (telegram_url tok) (telegram_payload chat msg) 5]) ∧
    (∀ e, post ⟨surl, [("text", msg)], 5⟩ = .exn e →
      send_slack_alert cfg post msg =
        [.post surl [("text", msg)] 5,
         .logWarning ("Failed to send Slack alert: " ++ e)]) ∧
    (∀ c, post ⟨surl, [("text", msg)], 5⟩ = .ok c →
      send_slack_alert cfg post msg = [.post surl [("text", msg)] 5]) :=
  ⟨fun e hp => send_telegram_events_exn cfg post msg tok chat e hT ht hC hc hp,
   fun c hp => send_telegram_events_ok cfg post msg tok chat c hT ht hC hc hp,
   fun e hp => send_slack_events_exn cfg post msg surl e hS hs hp,
   fun c hp => send_slack_events_ok cfg post msg surl c hS hs hp⟩

theorem sink_delivery_failure_handling_witness :
    send_telegram_alert ⟨5, some "TOK", some "42", some "https://w.example/h", 10⟩
        (fun _ => PostOutcome.exn "Timeout") "m" =
      [.post (telegram_url "TOK") (telegram_payload "42" "m") 5,
       .logWarning ("Failed to send telegram alert: " ++ "Timeout")] :=
  (sink_delivery_failure_handling
    ⟨5, some "TOK", some "42", some "https://w.example/h", 10⟩
    (fun _ => PostOutcome.exn "Timeout") "m" "TOK" "42" "https://w.example/h"
    rfl (by decide) rfl (by decide) rfl (by decide)).1 "Timeout" rfl

/-- C6: when the Telegram delivery raises, the exception is confined to that
sink — the warning is logged, the slack POST of the same dispatch still
happens, and the cycle goes on: the loop still probes every endpoint of the
list in order, for any post oracle. -/
theorem dispatch_isolates_sink_failure (cfg : Config)
    (net : String → HttpOutcome) (post : PostCall → PostOutcome)
    (name : String) (sc : Option Nat) (ts tok chat surl e : String)
    (eps : List Endpoint)
    (hT : cfg.telegram_bot_token = some tok) (ht : tok ≠ "")
    (hC : cfg.telegram_chat_id = some chat) (hc : chat ≠ "")
    (hS : cfg.slack_webhook_url = some surl) (hs : surl ≠ "")
    (hexn : post ⟨telegram_url tok,
      telegram_payload chat (alert_msg name sc ts), 5⟩ = .exn e) :
    Event.post surl [("text", slack_msg name sc ts)] 5 ∈
      dispatch cfg post name sc ts ∧
    Event.logWarning ("Failed to send telegram alert: " ++ e) ∈
      dispatch cfg post name sc ts ∧
    getUrls (monitor_loop cfg net post ts eps) = eps.map Endpoint.url := by
  refine ⟨?_, ?_, getUrls_monitor_loop cfg net post ts eps⟩
  · exact List.mem_append_right _
      (post_head_send_slack cfg post (slack_msg name sc ts) surl hS hs)
  · refine List.mem_append_left _ ?_
    rw [send_telegram_events_exn cfg post (alert_msg name sc ts) tok chat e
      hT ht hC hc hexn]
    simp

theorem dispatch_isolates_sink_failure_witness :
    Event.post "https://w.example/h" [("text", slack_msg "B" none "T0")] 5 ∈
      dispatch ⟨5, some "TOK", some "42", some "https://w.example/h", 10⟩
        (fun _ => PostOutcome.exn "boom") "B" none "T0" ∧
    Event.logWarning ("Failed to send telegram alert: " ++ "boom") ∈
      dispatch ⟨5, some "TOK", some "42", some "https://w.example/h", 10⟩
        (fun _ => PostOutcome.exn "boom") "B" none "T0" ∧
    getUrls (monitor_loop ⟨5, some "TOK", some "42", some "https://w.example/h", 10⟩
        (fun _ => .exn "refused") (fun _ => PostOutcome.exn "boom") "T0"
        ENDPOINTS) = ENDPOINTS.map Endpoint.url :=
  dispatch_isolates_sink_failure
    ⟨5, some "TOK", some "42", some "https://w.example/h", 10⟩
    (fun _ => .exn "refused") (fun _ => PostOutcome.exn "boom")
    "B" none "T0" "TOK" "42" "https://w.example/h" "boom" ENDPOINTS
    rfl (by decide) rfl (by decide) rfl (by decide) rfl

/-- C10: the timestamp is read once, before the loop (clock call index 0);
every sink POST of the whole cycle carries a message rendered with that one
cycle-start timestamp string, whichever endpoint failed and however the
clock advances afterwards. -/
theorem monitor_job_single_timestamp (cfg : Config)
    (net : String → HttpOutcome) (post : PostCall → PostOutcome)
    (now : Nat → String) (url : String) (p : List (String × String)) (t : Nat)
    (h : Event.post url p t ∈ monitor_job cfg net post now) :
    carries_timestamp (now 0) p := by
  unfold monitor_job at h
  rcases List.mem_cons.mp h with h | h
  · cases h
  · exact post_mem_monitor_loop cfg net post (now 0) url p t ENDPOINTS h

theorem monitor_job_single_timestamp_witness :
    carries_timestamp ((fun n : Nat => "T" ++ toString n) 0)
      [("text", slack_msg "GitHub API" none "T0")] :=
  monitor_job_single_timestamp
    ⟨5, some "TOK", some "42", some "https://w.example/h", 10⟩
    (fun _ => .exn "refused") (fun _ => PostOutcome.ok 200)
    (fun n => "T" ++ toString n) "https://w.example/h"
    [("text", slack_msg "GitHub API" none "T0")] 5 (by decide)

end UptimeMonitor
